import Mathlib

/-!
Formal model of the chat front end's client-side core: the application
state store (sessions, active session, flat message list), the retry
helper, the error classifier/handler, the remote list caches, and the
persistence adapter's date-reviving JSON round trip.

Each definition is a direct translation of the corresponding source
function.  JavaScript `Date.now()` / `new Date()` values are passed in
explicitly as natural-number timestamps; `Partial<T>` updates become
structures of `Option` fields; code that can throw returns `Except`.
-/

/-! ## String primitives

Models of the JavaScript string methods the source uses
(`slice(0, n)`, `toLowerCase`, `trim`, `includes`), expressed over the
character list of the string. -/

/-- Model of `s.slice(0, n)` for a non-negative `n`. -/
def strTake (s : String) (n : Nat) : String :=
  String.mk (s.data.take n)

/-- Model of `s.toLowerCase()` (ASCII case folding). -/
def strLower (s : String) : String :=
  String.mk (s.data.map Char.toLower)

/-- Whitespace recognized by `String.prototype.trim` (ASCII subset). -/
def isJsWhitespace (c : Char) : Bool :=
  c == ' ' || c == '\t' || c == '\n' || c == '\r'

/-- Model of `s.trim()`. -/
def strTrim (s : String) : String :=
  String.mk (((s.data.dropWhile isJsWhitespace).reverse.dropWhile isJsWhitespace).reverse)

/-- Helper for `strIncludes`: does `needle` occur as a contiguous block? -/
def charsInclude (needle : List Char) : List Char → Bool
  | [] => needle.isEmpty
  | c :: cs => needle.isPrefixOf (c :: cs) || charsInclude needle cs

/-- Model of `hay.includes(needle)`. -/
def strIncludes (hay needle : String) : Bool :=
  charsInclude needle.data hay.data

/-! ## Store data model (`store/types.ts`)

`Message` and `ChatSession` as declared by the store's type module;
`Date` fields are modeled as millisecond timestamps. -/

structure Message where
  id : String
  content : String
  isUser : Bool
  timestamp : Nat
  sources : Option (List String) := none
deriving Repr, DecidableEq

structure ChatSession where
  id : String
  title : String
  createdAt : Nat
  updatedAt : Nat
  tags : List String
  hasExternalSources : Bool
  pinned : Option Bool := none
  messages : List Message
deriving Repr, DecidableEq

/-- The slice of the zustand store state that the session/message actions
read and write (`chatSessions`, `activeChatId`, `messages`); the actions
never touch the other top-level fields. -/
structure StoreState where
  chatSessions : List ChatSession
  activeChatId : Option String
  messages : List Message
deriving Repr, DecidableEq

/-- A `Partial<Message>` argument: present fields override. -/
structure MessageUpdate where
  id : Option String := none
  content : Option String := none
  isUser : Option Bool := none
  timestamp : Option Nat := none
  sources : Option (Option (List String)) := none
deriving Repr, DecidableEq

/-- Object-spread merge `{ ...m, ...updates }`. -/
def applyMessageUpdate (m : Message) (u : MessageUpdate) : Message :=
  { id := u.id.getD m.id
    content := u.content.getD m.content
    isUser := u.isUser.getD m.isUser
    timestamp := u.timestamp.getD m.timestamp
    sources := u.sources.getD m.sources }

/-! ## Store actions (`store/appStore.ts`)

Each action takes the current wall-clock time `now` standing for the
`new Date()` calls it performs. -/

/-- `addMessage(message)`: appends to the flat list, mirrors the new list
into the active session, stamps `updatedAt`, and derives the title from
the first message when the session was empty. -/
def addMessage (message : Message) (now : Nat) (state : StoreState) : StoreState :=
  let updatedMessages := state.messages ++ [message]
  let updatedSessions := state.chatSessions.map (fun s =>
    if state.activeChatId = some s.id then
      { s with
          messages := updatedMessages
          updatedAt := now
          title := if s.messages.length = 0 then strTake message.content 60 else s.title }
    else s)
  { state with messages := updatedMessages, chatSessions := updatedSessions }

/-- `updateMessage(id, updates)`. -/
def updateMessage (id : String) (u : MessageUpdate) (now : Nat) (state : StoreState) :
    StoreState :=
  let updatedMessages := state.messages.map (fun m =>
    if m.id = id then applyMessageUpdate m u else m)
  let updatedSessions := state.chatSessions.map (fun s =>
    if state.activeChatId = some s.id then
      { s with messages := updatedMessages, updatedAt := now }
    else s)
  { state with messages := updatedMessages, chatSessions := updatedSessions }

/-- `deleteMessage(id)`. -/
def deleteMessage (id : String) (now : Nat) (state : StoreState) : StoreState :=
  let updatedMessages := state.messages.filter (fun m => m.id != id)
  let updatedSessions := state.chatSessions.map (fun s =>
    if state.activeChatId = some s.id then
      { s with messages := updatedMessages, updatedAt := now }
    else s)
  { state with messages := updatedMessages, chatSessions := updatedSessions }

/-- `deleteChatSession(id)`. -/
def deleteChatSession (id : String) (state : StoreState) : StoreState :=
  let filtered := state.chatSessions.filter (fun s => s.id != id)
  { state with
      chatSessions := filtered
      activeChatId :=
        if state.activeChatId = some id then
          match filtered with
          | [] => none
          | s :: _ => some s.id
        else state.activeChatId }

/-! ## C1: dual-write invariant -/

/-- One call out of the three message actions. -/
inductive MsgOp where
  | add (message : Message) (now : Nat)
  | update (id : String) (u : MessageUpdate) (now : Nat)
  | delete (id : String) (now : Nat)
deriving Repr, DecidableEq

def applyMsgOp (state : StoreState) : MsgOp → StoreState
  | .add m now => addMessage m now state
  | .update id u now => updateMessage id u now state
  | .delete id now => deleteMessage id now state

def applyMsgOps (state : StoreState) : List MsgOp → StoreState
  | [] => state
  | op :: rest => applyMsgOps (applyMsgOp state op) rest

/-- The dual-write property: every session whose id is `sid` carries
exactly the flat message list. -/
def DualWrite (sid : String) (state : StoreState) : Prop :=
  ∀ s ∈ state.chatSessions, s.id = sid → s.messages = state.messages

theorem activeChatId_applyMsgOp (state : StoreState) (op : MsgOp) :
    (applyMsgOp state op).activeChatId = state.activeChatId := by
  cases op <;> rfl

theorem dualWrite_applyMsgOp (state : StoreState) (sid : String)
    (hact : state.activeChatId = some sid) (op : MsgOp) :
    DualWrite sid (applyMsgOp state op) := by
  cases op with
  | add m now =>
      intro sess hmem hid
      simp only [applyMsgOp, addMessage, List.mem_map] at hmem
      obtain ⟨orig, _, rfl⟩ := hmem
      by_cases hcond : state.activeChatId = some orig.id
      · simp [applyMsgOp, addMessage, hcond]
      · exfalso
        rw [if_neg hcond] at hid
        exact hcond (hid ▸ hact)
  | update id u now =>
      intro sess hmem hid
      simp only [applyMsgOp, updateMessage, List.mem_map] at hmem
      obtain ⟨orig, _, rfl⟩ := hmem
      by_cases hcond : state.activeChatId = some orig.id
      · simp [applyMsgOp, updateMessage, hcond]
      · exfalso
        rw [if_neg hcond] at hid
        exact hcond (hid ▸ hact)
  | delete id now =>
      intro sess hmem hid
      simp only [applyMsgOp, deleteMessage, List.mem_map] at hmem
      obtain ⟨orig, _, rfl⟩ := hmem
      by_cases hcond : state.activeChatId = some orig.id
      · simp [applyMsgOp, deleteMessage, hcond]
      · exfalso
        rw [if_neg hcond] at hid
        exact hcond (hid ▸ hact)

/-- C1 (dual-write invariant): for every sequence of `addMessage`,
`updateMessage` and `deleteMessage` calls performed while session `sid`
is active, if the flat `messages` list and the embedded `.messages` list
of every session with id `sid` agree beforehand, they agree after every
call of the sequence (every prefix of a sequence being itself a
sequence, quantifying over all op lists covers every observation
point), and the session stays active throughout. -/
theorem dual_write_invariant (sid : String) (ops : List MsgOp) :
    ∀ state : StoreState, state.activeChatId = some sid → DualWrite sid state →
      (applyMsgOps state ops).activeChatId = some sid ∧
        DualWrite sid (applyMsgOps state ops) := by
  induction ops with
  | nil => exact fun state hact hinv => ⟨hact, hinv⟩
  | cons op rest ih =>
      intro state hact hinv
      exact ih (applyMsgOp state op)
        ((activeChatId_applyMsgOp state op).trans hact)
        (dualWrite_applyMsgOp state sid hact op)

def sampleMessage : Message :=
  { id := "m1", content := "hello there", isUser := true, timestamp := 10 }

def sampleSession : ChatSession :=
  { id := "A", title := "New Chat", createdAt := 0, updatedAt := 0, tags := []
    hasExternalSources := false, pinned := some false, messages := [] }

def sampleState : StoreState :=
  { chatSessions := [sampleSession], activeChatId := some "A", messages := [] }

def sampleOps : List MsgOp :=
  [MsgOp.add sampleMessage 11,
   MsgOp.update "m1" { content := some "edited" } 12,
   MsgOp.delete "m1" 13]

/-- Witness for C1 at a concrete store state and call sequence. -/
theorem dual_write_invariant_witness :
    sampleState.activeChatId = some "A" ∧ DualWrite "A" sampleState ∧
      (applyMsgOps sampleState sampleOps).activeChatId = some "A" ∧
      DualWrite "A" (applyMsgOps sampleState sampleOps) := by
  have hinv : ∀ s ∈ sampleState.chatSessions, s.id = "A" →
      s.messages = sampleState.messages := by decide
  exact ⟨rfl, hinv, dual_write_invariant "A" sampleOps sampleState rfl hinv⟩

/-! ## C4: title auto-derivation -/

/-- C4 (title auto-derivation): `addMessage m` maps each session of the
store pointwise; for a session with the active id, if its embedded
message list was empty its title becomes the first 60 characters of
`m.content`, if it was non-empty its title is untouched, and after the
call its embedded list is never empty (so every later `addMessage` on
that session leaves the title unchanged). -/
theorem title_auto_derivation (st : StoreState) (sid : String) (m : Message) (now : Nat)
    (hact : st.activeChatId = some sid) :
    List.Forall₂ (fun old new =>
        (old.id = sid → old.messages = [] → new.title = strTake m.content 60) ∧
        (old.id = sid → old.messages ≠ [] → new.title = old.title) ∧
        (old.id = sid → new.messages ≠ []))
      st.chatSessions (addMessage m now st).chatSessions := by
  simp only [addMessage]
  rw [List.forall₂_map_right_iff, List.forall₂_same]
  intro sess _
  by_cases hcond : st.activeChatId = some sess.id
  · refine ⟨?_, ?_, ?_⟩
    · intro _ hempty
      simp [hcond, hempty]
    · intro _ hne
      simp [hcond, List.length_eq_zero, hne]
    · intro _
      simp [hcond]
  · have hne : sess.id ≠ sid := by
      intro h
      exact hcond (by rw [h, hact])
    exact ⟨fun h => absurd h hne, fun h => absurd h hne, fun h => absurd h hne⟩

def hundredX : String := String.mk (List.replicate 100 'X')

def sampleMessage100 : Message :=
  { id := "m2", content := hundredX, isUser := true, timestamp := 20 }

/-- Witness for C4: a fresh session, a 100-character message; the title
becomes exactly the first 60 characters. -/
theorem title_auto_derivation_witness :
    sampleState.activeChatId = some "A" ∧
      List.Forall₂ (fun old new =>
          (old.id = "A" → old.messages = [] →
            new.title = strTake sampleMessage100.content 60) ∧
          (old.id = "A" → old.messages ≠ [] → new.title = old.title) ∧
          (old.id = "A" → new.messages ≠ []))
        sampleState.chatSessions
        (addMessage sampleMessage100 21 sampleState).chatSessions ∧
      strTake hundredX 60 = String.mk (List.replicate 60 'X') := by
  refine ⟨rfl, title_auto_derivation sampleState "A" sampleMessage100 21 rfl, ?_⟩
  decide

/-! ## C5: delete-active-session fallback -/

/-- C5 (delete-active-session fallback): `deleteChatSession id` keeps
exactly the sessions with a different id; if the deleted session was
active, the first remaining session becomes active (or `none` when no
session remains); otherwise the active pointer is untouched. -/
theorem delete_active_session_fallback (st : StoreState) (id : String) :
    (deleteChatSession id st).chatSessions =
        st.chatSessions.filter (fun s => s.id != id) ∧
      (st.activeChatId = some id →
        (deleteChatSession id st).activeChatId =
          ((st.chatSessions.filter (fun s => s.id != id)).head?).map ChatSession.id) ∧
      (st.activeChatId ≠ some id →
        (deleteChatSession id st).activeChatId = st.activeChatId) := by
  refine ⟨rfl, ?_, ?_⟩
  · intro h
    simp only [deleteChatSession, h, if_pos]
    cases st.chatSessions.filter (fun s => s.id != id) <;> simp
  · intro h
    simp [deleteChatSession, h]

def sessionB : ChatSession :=
  { id := "B", title := "Second", createdAt := 1, updatedAt := 1, tags := []
    hasExternalSources := false, pinned := some false, messages := [] }

def twoSessionState : StoreState :=
  { chatSessions := [sampleSession, sessionB], activeChatId := some "A", messages := [] }

/-- Witness for C5: sessions `[A, B]` with `A` active; deleting `A`
makes `B` active. -/
theorem delete_active_session_fallback_witness :
    twoSessionState.activeChatId = some "A" ∧
      (deleteChatSession "A" twoSessionState).activeChatId =
        ((twoSessionState.chatSessions.filter (fun s => s.id != "A")).head?).map
          ChatSession.id ∧
      (deleteChatSession "A" twoSessionState).activeChatId = some "B" := by
  refine ⟨rfl, (delete_active_session_fallback twoSessionState "A").2.1 rfl, ?_⟩
  decide

/-! ## Retry helper (`withRetry`, `utils/errorHandler.ts`)

`withRetry` runs `for (let attempt = 1; attempt <= maxAttempts; attempt++)`.
The model indexes the successive invocations of the operation by their
attempt number (`fn attempt` is the outcome of that invocation) and
returns a trace recording the final outcome, how many times the
operation ran, the sleep durations between attempts, and the `onRetry`
invocations.  The thrown value is `Option E`: `some e` for a stored last
error, `none` for the uninitialized `lastError` placeholder
(`undefined`) thrown when the loop body never ran. -/

structure RetryTrace (E A : Type) where
  result : Except (Option E) A
  calls : Nat
  waits : List Nat
  retries : List (Nat × E)

/-- Loop body of `withRetry`: `attempt` is the current attempt number,
`remaining` the number of attempts still allowed
(`maxAttempts - attempt + 1`); `remaining = 1` means this is the final
attempt, whose failure breaks out of the loop without `onRetry` or a
sleep. -/
def runAttempts (fn : Nat → Except E A) (delay : Nat) (backoff : Bool) :
    Nat → Nat → Option E → RetryTrace E A
  | _, 0, lastError =>
      { result := .error lastError, calls := 0, waits := [], retries := [] }
  | attempt, 1, _ =>
      match fn attempt with
      | .ok a => { result := .ok a, calls := 1, waits := [], retries := [] }
      | .error e => { result := .error (some e), calls := 1, waits := [], retries := [] }
  | attempt, remaining + 2, _ =>
      match fn attempt with
      | .ok a => { result := .ok a, calls := 1, waits := [], retries := [] }
      | .error e =>
          let w := if backoff then delay * 2 ^ (attempt - 1) else delay
          let t := runAttempts fn delay backoff (attempt + 1) (remaining + 1) (some e)
          { result := t.result
            calls := t.calls + 1
            waits := w :: t.waits
            retries := (attempt, e) :: t.retries }

/-- `withRetry(fn, {maxAttempts, delay, backoff, onRetry})`.
`maxAttempts` is an integer as in the source; a value below 1 gives the
loop zero iterations. -/
def withRetry (fn : Nat → Except E A) (maxAttempts : Int) (delay : Nat) (backoff : Bool) :
    RetryTrace E A :=
  runAttempts fn delay backoff 1 maxAttempts.toNat none

theorem runAttempts_all_fail (errs : Nat → E) (fn : Nat → Except E A)
    (hfn : ∀ i, fn i = .error (errs i)) (delay : Nat) :
    ∀ (k a : Nat) (le : Option E),
      runAttempts fn delay true a (k + 1) le =
        { result := .error (some (errs (a + k)))
          calls := k + 1
          waits := (List.range k).map (fun i => delay * 2 ^ (a + i - 1))
          retries := (List.range k).map (fun i => (a + i, errs (a + i))) } := by
  intro k
  induction k with
  | zero =>
      intro a le
      simp [runAttempts, hfn a]
  | succ j ih =>
      intro a le
      show runAttempts fn delay true a (j + 2) le = _
      rw [runAttempts, hfn a]
      dsimp only
      rw [ih (a + 1)]
      simp only [List.range_succ_eq_map, List.map_cons, List.map_map]
      congr 1
      · have : a + 1 + j = a + (j + 1) := by omega
        rw [this]
      · have h0 : delay * 2 ^ (a + 0 - 1) = delay * 2 ^ (a - 1) := by norm_num
        rw [h0]
        refine congrArg₂ List.cons rfl ?_
        apply List.map_congr_left
        intro i _
        show delay * 2 ^ (a + 1 + i - 1) = delay * 2 ^ (a + Nat.succ i - 1)
        have : a + 1 + i - 1 = a + Nat.succ i - 1 := by omega
        rw [this]
      · have h0 : a + 0 = a := by norm_num
        rw [h0]
        refine congrArg₂ List.cons rfl ?_
        apply List.map_congr_left
        intro i _
        show (a + 1 + i, errs (a + 1 + i)) = (a + Nat.succ i, errs (a + Nat.succ i))
        have : a + 1 + i = a + Nat.succ i := by omega
        rw [this]

/-- C2 (retry exhaustion): when the operation fails on every invocation
and `maxAttempts ≥ 1`, `withRetry` with exponential backoff invokes the
operation exactly `maxAttempts` times, sleeps `delay * 2 ^ (attempt - 1)`
between consecutive attempts, calls `onRetry(attempt, error)` after each
non-final failure, and finally rethrows the last failure itself. -/
theorem retry_exhaustion {E A : Type} (errs : Nat → E) (fn : Nat → Except E A)
    (hfn : ∀ i, fn i = .error (errs i)) (m : Nat) (hm : 1 ≤ m) (delay : Nat) :
    (withRetry fn (m : Int) delay true).calls = m ∧
      (withRetry fn (m : Int) delay true).waits =
        (List.range (m - 1)).map (fun i => delay * 2 ^ i) ∧
      (withRetry fn (m : Int) delay true).retries =
        (List.range (m - 1)).map (fun i => (i + 1, errs (i + 1))) ∧
      (withRetry fn (m : Int) delay true).result = Except.error (some (errs m)) := by
  obtain ⟨j, rfl⟩ : ∃ j, m = j + 1 := ⟨m - 1, by omega⟩
  have hrun := runAttempts_all_fail errs fn hfn delay j 1 none
  have htoNat : ((j + 1 : Nat) : Int).toNat = j + 1 := by
    simp
  rw [withRetry, htoNat, hrun]
  refine ⟨rfl, ?_, ?_, by rw [Nat.add_comm 1 j]⟩
  · simp only [Nat.add_sub_cancel]
    apply List.map_congr_left
    intro i _
    have : 1 + i - 1 = i := by omega
    rw [this]
  · simp only [Nat.add_sub_cancel]
    apply List.map_congr_left
    intro i _
    have : 1 + i = i + 1 := by omega
    rw [this]

/-- Witness for C2 at `maxAttempts = 3`, `delay = 10`, an operation that
fails with error `i` on attempt `i`: three invocations, sleeps of 10 ms
then 20 ms, `onRetry` after attempts 1 and 2, and the final rejection is
the error of attempt 3. -/
theorem retry_exhaustion_witness :
    (1 ≤ 3 ∧
      (withRetry (fun i => (Except.error i : Except Nat Unit)) 3 10 true).calls = 3 ∧
      (withRetry (fun i => (Except.error i : Except Nat Unit)) 3 10 true).waits =
        (List.range 2).map (fun i => 10 * 2 ^ i) ∧
      (withRetry (fun i => (Except.error i : Except Nat Unit)) 3 10 true).retries =
        (List.range 2).map (fun i => (i + 1, i + 1)) ∧
      (withRetry (fun i => (Except.error i : Except Nat Unit)) 3 10 true).result =
        Except.error (some 3)) ∧
      (List.range 2).map (fun i => 10 * 2 ^ i) = [10, 20] := by
  refine ⟨⟨by decide, ?_⟩, by decide⟩
  exact retry_exhaustion (fun i => i) (fun i => Except.error i) (fun i => rfl) 3
    (by decide) 10

/-- C10 (zero-attempt edge): with `maxAttempts < 1` the operation is
never invoked and `withRetry` throws the uninitialized `lastError`
placeholder (`undefined`, modeled as `none`) — not an error produced by
the operation. -/
theorem retry_zero_attempts {E A : Type} (fn : Nat → Except E A) (maxAttempts : Int)
    (h : maxAttempts < 1) (delay : Nat) (backoff : Bool) :
    (withRetry fn maxAttempts delay backoff).calls = 0 ∧
      (withRetry fn maxAttempts delay backoff).result = Except.error none ∧
      (withRetry fn maxAttempts delay backoff).waits = [] ∧
      (withRetry fn maxAttempts delay backoff).retries = [] := by
  have h0 : maxAttempts.toNat = 0 := Int.toNat_of_nonpos (by omega)
  rw [withRetry, h0]
  exact ⟨rfl, rfl, rfl, rfl⟩

/-- Witness for C10 at `maxAttempts = 0`. -/
theorem retry_zero_attempts_witness :
    ((0 : Int) < 1 ∧
      (withRetry (fun i => (Except.error i : Except Nat Unit)) 0 10 true).calls = 0 ∧
      (withRetry (fun i => (Except.error i : Except Nat Unit)) 0 10 true).result =
        Except.error none ∧
      (withRetry (fun i => (Except.error i : Except Nat Unit)) 0 10 true).waits = [] ∧
      (withRetry (fun i => (Except.error i : Except Nat Unit)) 0 10 true).retries = []) := by
  have h := retry_zero_attempts (fun i => (Except.error i : Except Nat Unit)) 0
    (by decide) 10 true
  exact ⟨by decide, h.1, h.2.1, h.2.2.1, h.2.2.2⟩

/-! ## Error classifier and handler (`utils/errorHandler.ts`)

A runtime error value is modeled by the fields the classifier inspects:
an optional HTTP `status`, an optional `code`, and a `message` that a
malformed error object may lack (`Option String`).  JavaScript
truthiness of a number is `≠ 0`.  Code that can raise a `TypeError`
(reading `.toLowerCase()` off a missing message) returns `Except Unit`. -/

inductive Severity where
  | low | medium | high | critical
deriving Repr, DecidableEq

structure ErrorInput where
  message : Option String := none
  status : Option Nat := none
  code : Option String := none
deriving Repr, DecidableEq

/-- The `switch (error.status)` table of `classifyErrorSeverity`, with
its grouped cases and `default to medium`. -/
def statusSeverity (st : Nat) : Severity :=
  if st = 400 ∨ st = 422 then .low
  else if st = 401 ∨ st = 403 then .medium
  else if st = 404 then .low
  else if st = 429 then .medium
  else if st = 500 ∨ st = 502 ∨ st = 503 ∨ st = 504 then .high
  else .medium

/-- The six message-text heuristics, applied to the lower-cased message. -/
def messageSeverity (lowerMsg : String) : Severity :=
  if strIncludes lowerMsg "network" || strIncludes lowerMsg "connection" then .high
  else if strIncludes lowerMsg "validation" || strIncludes lowerMsg "invalid" then .low
  else if strIncludes lowerMsg "unauthorized" || strIncludes lowerMsg "forbidden" then .medium
  else .medium

/-- `classifyErrorSeverity(error)`.  Reading `error.message.toLowerCase()`
on an error without a message throws — modeled as `Except.error ()`. -/
def classifyErrorSeverity (e : ErrorInput) : Except Unit Severity :=
  match e.status with
  | some st =>
      if st ≠ 0 then Except.ok (statusSeverity st)
      else
        if e.code = some "NETWORK_ERROR" then Except.ok .high
        else
          match e.message with
          | none => Except.error ()
          | some msg => Except.ok (messageSeverity (strLower msg))
  | none =>
      if e.code = some "NETWORK_ERROR" then Except.ok .high
      else
        match e.message with
        | none => Except.error ()
        | some msg => Except.ok (messageSeverity (strLower msg))

/-- C3 counterexample: HTTP 501 is in the 5xx range, but the switch only
lists 500/502/503/504, so 501 falls through to the `default` arm and is
classified `medium`, not `high` as the claim states. -/
theorem error_severity_5xx_counterexample :
    classifyErrorSeverity { message := some "Internal failure", status := some 501 } =
        Except.ok Severity.medium ∧
      Severity.medium ≠ Severity.high := by
  refine ⟨rfl, by decide⟩

/-- C3 (amended): errors with a non-zero HTTP status are classified by
the fixed table — low for 400/404/422, medium for 401/403/429, high for
500/502/503/504 — and any other status (including 5xx statuses other
than those four, such as 501) yields medium; an error without a status
whose code is the network-transport marker is high; an error matching
no table entry and no message heuristic is medium. -/
theorem error_severity_table :
    (∀ e : ErrorInput, ∀ st ∈ [400, 404, 422], e.status = some st →
        classifyErrorSeverity e = Except.ok Severity.low) ∧
      (∀ e : ErrorInput, ∀ st ∈ [401, 403, 429], e.status = some st →
        classifyErrorSeverity e = Except.ok Severity.medium) ∧
      (∀ e : ErrorInput, ∀ st ∈ [500, 502, 503, 504], e.status = some st →
        classifyErrorSeverity e = Except.ok Severity.high) ∧
      (∀ e : ErrorInput, ∀ st : Nat, e.status = some st → st ≠ 0 →
        st ∉ [400, 404, 422, 401, 403, 429, 500, 502, 503, 504] →
        classifyErrorSeverity e = Except.ok Severity.medium) ∧
      (∀ e : ErrorInput, e.status = none → e.code = some "NETWORK_ERROR" →
        classifyErrorSeverity e = Except.ok Severity.high) ∧
      (∀ (e : ErrorInput) (msg : String), e.status = none →
        e.code ≠ some "NETWORK_ERROR" → e.message = some msg →
        messageSeverity (strLower msg) = Severity.medium →
        classifyErrorSeverity e = Except.ok Severity.medium) := by
  refine ⟨?_, ?_, ?_, ?_, ?_, ?_⟩
  · intro e st hst hstatus
    fin_cases hst <;> simp [classifyErrorSeverity, hstatus, statusSeverity]
  · intro e st hst hstatus
    fin_cases hst <;> simp [classifyErrorSeverity, hstatus, statusSeverity]
  · intro e st hst hstatus
    fin_cases hst <;> simp [classifyErrorSeverity, hstatus, statusSeverity]
  · intro e st hstatus hne hnotin
    simp only [List.mem_cons, List.not_mem_nil, or_false] at hnotin
    push_neg at hnotin
    simp [classifyErrorSeverity, hstatus, hne, statusSeverity, hnotin]
  · intro e hstatus hcode
    simp [classifyErrorSeverity, hstatus, hcode]
  · intro e msg hstatus hcode hmsg hheur
    simp [classifyErrorSeverity, hstatus, hcode, hmsg, hheur]

/-- Witness for C3 (amended) at concrete inputs: one status from each
severity row, the out-of-table status 501, a network-transport error,
and a plain unmatched message. -/
theorem error_severity_table_witness :
    classifyErrorSeverity { message := some "x", status := some 404 } =
        Except.ok Severity.low ∧
      classifyErrorSeverity { message := some "x", status := some 429 } =
        Except.ok Severity.medium ∧
      classifyErrorSeverity { message := some "x", status := some 503 } =
        Except.ok Severity.high ∧
      classifyErrorSeverity { message := some "x", status := some 501 } =
        Except.ok Severity.medium ∧
      classifyErrorSeverity { message := some "x", code := some "NETWORK_ERROR" } =
        Except.ok Severity.high ∧
      classifyErrorSeverity { message := some "Something odd happened" } =
        Except.ok Severity.medium := by
  refine ⟨?_, ?_, ?_, ?_, ?_, ?_⟩
  · exact error_severity_table.1 _ 404 (by decide) rfl
  · exact error_severity_table.2.1 _ 429 (by decide) rfl
  · exact error_severity_table.2.2.1 _ 503 (by decide) rfl
  · exact error_severity_table.2.2.2.1 _ 501 rfl (by decide) (by decide)
  · exact error_severity_table.2.2.2.2.1 _ rfl rfl
  · exact error_severity_table.2.2.2.2.2 _ "Something odd happened" rfl
      (by decide) rfl (by decide)

/-! ## Global error handler (`handleError`)

`crypto.randomUUID()` is modeled by a fresh-id counter carried in the
logger state; a returned empty-string id is modeled as `none`.  The
caller-supplied `onError` callback is modeled by whether it throws
(`some true` / `some false`) or is absent (`none`); the handler wraps it
in `try/catch`, so a throwing callback is swallowed. -/

structure ErrorContext where
  component : Option String := none
  action : Option String := none
deriving Repr, DecidableEq

/-- The `contextMessages` action-keyed lookup table. -/
def contextMessages (action : String) : Option String :=
  if action = "login" then some "Failed to log in. Please check your credentials."
  else if action = "logout" then some "Failed to log out. Please try again."
  else if action = "session_create" then
    some "Failed to create chat session. Please try again."
  else if action = "session_load" then
    some "Failed to load chat sessions. Please refresh the page."
  else if action = "message_load" then some "Failed to load messages. Please try again."
  else if action = "query_submit" then
    some "Failed to send your message. Please check your connection and try again."
  else if action = "source_load" then
    some "Failed to load sources. Please refresh the page."
  else if action = "source_delete" then some "Failed to delete source. Please try again."
  else none

/-- `getErrorDisplayMessage(error, context)`; `error.message || fallback`
treats a missing or empty message as falsy. -/
def getErrorDisplayMessage (e : ErrorInput) (ctx : ErrorContext) : String :=
  let fallback :=
    match e.message with
    | some m => if m = "" then "An unexpected error occurred" else m
    | none => "An unexpected error occurred"
  match ctx.action with
  | some a =>
      if a ≠ "" then
        match contextMessages a with
        | some m => m
        | none => fallback
      else fallback
  | none => fallback

structure ErrorLog where
  id : Nat
  timestamp : Nat
  error : ErrorInput
  context : ErrorContext
  severity : Severity
  handled : Bool
deriving Repr, DecidableEq

structure LoggerState where
  logs : List ErrorLog := []
  nextId : Nat := 0
deriving Repr, DecidableEq

/-- `ErrorLogger.log`: classifies (which may throw), unshifts the entry,
caps the buffer at 100 entries, and returns the fresh id. -/
def errorLoggerLog (e : ErrorInput) (ctx : ErrorContext) (now : Nat)
    (st : LoggerState) : Except Unit (Nat × LoggerState) := do
  let severity ← classifyErrorSeverity e
  let id := st.nextId
  let entry : ErrorLog :=
    { id := id, timestamp := now, error := e, context := ctx
      severity := severity, handled := false }
  let logs := entry :: st.logs
  let logs := if logs.length > 100 then logs.take 100 else logs
  return (id, { logs := logs, nextId := id + 1 })

def markAsHandled (id : Nat) (st : LoggerState) : LoggerState :=
  { st with logs := st.logs.map (fun l => if l.id = id then { l with handled := true } else l) }

structure ErrorHandlerOptions where
  showToast : Bool := true
  logError : Bool := true
  toastDuration : Nat := 5000
  customMessage : Option String := none
  onErrorThrows : Option Bool := none
deriving Repr, DecidableEq

structure ToastCall where
  title : String
  description : String
  destructive : Bool
  duration : Nat
deriving Repr, DecidableEq

/-- `handleError(error, context, options)`: log (may throw), derive the
display message, toast (classifies again, may throw), run the insulated
callback, mark the log entry handled, and return the log id. -/
def handleError (e : ErrorInput) (ctx : ErrorContext) (opts : ErrorHandlerOptions)
    (st : LoggerState) (now : Nat) :
    Except Unit (Option Nat × LoggerState × List ToastCall) := do
  let (errorId, st1) ←
    if opts.logError then
      match errorLoggerLog e ctx now st with
      | .error u => Except.error u
      | .ok (id, st2) => Except.ok (some id, st2)
    else Except.ok (none, st)
  let message :=
    match opts.customMessage with
    | some m => if m ≠ "" then m else getErrorDisplayMessage e ctx
    | none => getErrorDisplayMessage e ctx
  let toasts ←
    if opts.showToast then
      match classifyErrorSeverity e with
      | .error u => Except.error u
      | .ok severity =>
          Except.ok [{ title := "Error", description := message
                       destructive := severity = .critical ∨ severity = .high
                       duration := opts.toastDuration : ToastCall }]
    else Except.ok []
  let st3 :=
    match errorId with
    | some id => markAsHandled id st1
    | none => st1
  return (errorId, st3, toasts)

/-- C9 is false of the code: an error object with no status, no code and
no message makes `classifyErrorSeverity` read `.toLowerCase()` off
`undefined`, so `handleError` itself throws instead of returning a log
id.  This theorem evaluates the handler at that failing input (default
context and options, empty logger) and observes the throw. -/
theorem handle_error_throws_on_malformed :
    handleError { message := none, status := none, code := none } {} {} {} 0 =
      Except.error () := by
  rfl

/-! ## Remote list caches (session / source / query)

A JavaScript `Map` is modeled as an association list in insertion
order: `set` on an existing key updates it in place (a `Map` keeps the
original insertion position), `set` on a fresh key appends, and
`keys().next().value` is the head key.  `get` methods that prune expired
entries return the value together with the possibly-pruned cache. -/

def mapLookup : List (String × ν) → String → Option ν
  | [], _ => none
  | p :: rest, k => if p.1 = k then some p.2 else mapLookup rest k

def mapContainsKey (m : List (String × ν)) (k : String) : Bool :=
  m.any (fun p => p.1 == k)

def mapSet (m : List (String × ν)) (k : String) (v : ν) : List (String × ν) :=
  if mapContainsKey m k then m.map (fun p => if p.1 = k then (k, v) else p)
  else m ++ [(k, v)]

def mapDelete (m : List (String × ν)) (k : String) : List (String × ν) :=
  m.filter (fun p => p.1 != k)

theorem mapLookup_map_update (m : List (String × ν)) (k : String) (v : ν) :
    mapLookup (m.map (fun p => if p.1 = k then (k, v) else p)) k =
      if mapContainsKey m k then some v else none := by
  induction m with
  | nil => simp [mapLookup, mapContainsKey]
  | cons p rest ih =>
      by_cases hp : p.1 = k
      · simp [mapLookup, mapContainsKey, hp]
      · have hcont : mapContainsKey (p :: rest) k = mapContainsKey rest k := by
          simp only [mapContainsKey, List.any_cons]
          rw [beq_eq_false_iff_ne.mpr hp, Bool.false_or]
        rw [List.map_cons, if_neg hp, mapLookup, if_neg hp, hcont]
        exact ih

theorem mapLookup_append_single (m : List (String × ν)) (k : String) (v : ν)
    (h : mapContainsKey m k = false) : mapLookup (m ++ [(k, v)]) k = some v := by
  induction m with
  | nil => simp [mapLookup]
  | cons p rest ih =>
      simp only [mapContainsKey, List.any_cons, Bool.or_eq_false_iff] at h
      have hp : ¬ p.1 = k := by simpa using h.1
      rw [List.cons_append, mapLookup, if_neg hp]
      exact ih (by simpa [mapContainsKey] using h.2)

theorem mapLookup_mapSet_self (m : List (String × ν)) (k : String) (v : ν) :
    mapLookup (mapSet m k v) k = some v := by
  rw [mapSet]
  by_cases h : mapContainsKey m k
  · rw [if_pos h, mapLookup_map_update, if_pos h]
  · rw [if_neg h, mapLookup_append_single m k v (by simpa using h)]

theorem mapLookup_mapDelete_self (m : List (String × ν)) (k : String) :
    mapLookup (mapDelete m k) k = none := by
  induction m with
  | nil => rfl
  | cons p rest ih =>
      by_cases hp : p.1 = k
      · simpa [mapDelete, hp] using ih
      · simpa [mapDelete, mapLookup, hp] using ih

/-! ### SessionCache (`utils/sessionUtils.ts`)

Two parallel maps keyed by user id.  The value type (`SessionsResponse`)
is never inspected by the cache, so it is a type parameter.  The falsy
check `!lastUpdate` makes a stored timestamp of `0` behave as a miss. -/

def SESSION_CACHE_DURATION : Nat := 5 * 60 * 1000

structure SessionCache (V : Type) where
  cache : List (String × V) := []
  lastUpdate : List (String × Nat) := []

def SessionCache.set (c : SessionCache V) (userId : String) (sessions : V) (now : Nat) :
    SessionCache V :=
  { cache := mapSet c.cache userId sessions
    lastUpdate := mapSet c.lastUpdate userId now }

def SessionCache.get (c : SessionCache V) (userId : String) (now : Nat) :
    Option V × SessionCache V :=
  match mapLookup c.cache userId, mapLookup c.lastUpdate userId with
  | some sessions, some lastUpdate =>
      if lastUpdate = 0 then (none, c)
      else if now - lastUpdate > SESSION_CACHE_DURATION then
        (none, { cache := mapDelete c.cache userId
                 lastUpdate := mapDelete c.lastUpdate userId })
      else (some sessions, c)
  | _, _ => (none, c)

def SessionCache.invalidate (c : SessionCache V) (userId : String) : SessionCache V :=
  { cache := mapDelete c.cache userId, lastUpdate := mapDelete c.lastUpdate userId }

/-! ### SourceCache (`utils/sourceUtils.ts`)

A single optional list plus an optional timestamp; `get` returns a copy
of the array, which in a value model is the list itself. -/

def SOURCE_CACHE_DURATION : Nat := 5 * 60 * 1000

structure SourceCache (S : Type) where
  cache : Option (List S) := none
  lastUpdate : Option Nat := none

def SourceCache.set (c : SourceCache S) (sources : List S) (now : Nat) : SourceCache S :=
  { cache := some sources, lastUpdate := some now }

def SourceCache.get (c : SourceCache S) (now : Nat) :
    Option (List S) × SourceCache S :=
  match c.cache, c.lastUpdate with
  | some sources, some lastUpdate =>
      if lastUpdate = 0 then (none, c)
      else if now - lastUpdate > SOURCE_CACHE_DURATION then
        (none, { cache := none, lastUpdate := none })
      else (some sources, c)
  | _, _ => (none, c)

/-! ### QueryCache (`utils/queryUtils.ts`) -/

def QUERY_CACHE_DURATION : Nat := 10 * 60 * 1000

def MAX_CACHE_SIZE : Nat := 100

/-- The request-settings object (`QueryState` in `api/types.ts`).
JavaScript numbers are modeled as rationals. -/
structure QueryState where
  model_name : String
  category : Option String := none
  sub_category : Option String := none
  temperature : Rat
  top_k : Nat
  memory_service : String
  reddit_username : Option String := none
  relevance : Option String := none
deriving Repr, DecidableEq

/-- Template-literal rendering of an optional field: `undefined`
interpolates as the text `undefined`. -/
def optionField : Option String → String
  | some s => s
  | none => "undefined"

/-- Template-literal rendering of a number (deterministic function of
the numeric value). -/
def numRender (q : Rat) : String := toString q

def natRender (n : Nat) : String := toString n

/-- `generateCacheKey(query, state)`: the normalized query text plus the
five settings fields that affect the answer. -/
def generateCacheKey (query : String) (state : QueryState) : String :=
  let stateKey := state.model_name ++ "-" ++ optionField state.category ++ "-" ++
    optionField state.sub_category ++ "-" ++ numRender state.temperature ++ "-" ++
    natRender state.top_k
  strTrim (strLower query) ++ "-" ++ stateKey

structure QueryCache (R : Type) where
  cache : List (String × (R × Nat)) := []

/-- `QueryCache.get`: a hit older than the TTL is deleted and reported
as a miss. -/
def QueryCache.get (c : QueryCache R) (query : String) (state : QueryState) (now : Nat) :
    Option R × QueryCache R :=
  let key := generateCacheKey query state
  match mapLookup c.cache key with
  | none => (none, c)
  | some (response, timestamp) =>
      if now - timestamp > QUERY_CACHE_DURATION then
        (none, { cache := mapDelete c.cache key })
      else (some response, c)

/-- `QueryCache.set`: at or above the size cap, the first-inserted key
is deleted before inserting (the falsy guard `if (oldestKey)` skips the
eviction when that key is the empty string). -/
def QueryCache.set (c : QueryCache R) (query : String) (state : QueryState)
    (response : R) (now : Nat) : QueryCache R :=
  let key := generateCacheKey query state
  let pruned :=
    if MAX_CACHE_SIZE ≤ c.cache.length then
      match c.cache with
      | [] => c.cache
      | p :: rest => if p.1 = "" then c.cache else rest
    else c.cache
  { cache := mapSet pruned key (response, now) }

/-- C7 (cache TTL and eviction): for each of the three caches, a `set`
followed by an immediate `get` of the same key returns the value; a
`get` more than the TTL (5 min session/source, 10 min query) after the
`set` returns `null` and removes the entry; and a `set` on the query
cache holding at least its 100-entry cap first evicts the
oldest-inserted entry.  The positive `now > 0` hypotheses reflect that a
wall-clock timestamp is never the falsy `0`. -/
theorem cache_ttl_and_eviction :
    (∀ (V : Type) (c : SessionCache V) (k : String) (v : V) (now : Nat), 0 < now →
        ((c.set k v now).get k now).1 = some v) ∧
      (∀ (V : Type) (c : SessionCache V) (k : String) (v : V) (now later : Nat),
        0 < now → later - now > SESSION_CACHE_DURATION →
        ((c.set k v now).get k later).1 = none ∧
          mapLookup (((c.set k v now).get k later).2.cache) k = none ∧
          mapLookup (((c.set k v now).get k later).2.lastUpdate) k = none) ∧
      (∀ (S : Type) (c : SourceCache S) (xs : List S) (now : Nat), 0 < now →
        ((c.set xs now).get now).1 = some xs) ∧
      (∀ (S : Type) (c : SourceCache S) (xs : List S) (now later : Nat),
        0 < now → later - now > SOURCE_CACHE_DURATION →
        ((c.set xs now).get later).1 = none ∧
          ((c.set xs now).get later).2.cache = none ∧
          ((c.set xs now).get later).2.lastUpdate = none) ∧
      (∀ (R : Type) (c : QueryCache R) (q : String) (st : QueryState) (r : R)
          (now : Nat),
        ((c.set q st r now).get q st now).1 = some r) ∧
      (∀ (R : Type) (c : QueryCache R) (q : String) (st : QueryState) (r : R)
          (now later : Nat), later - now > QUERY_CACHE_DURATION →
        ((c.set q st r now).get q st later).1 = none ∧
          mapLookup (((c.set q st r now).get q st later).2.cache)
            (generateCacheKey q st) = none) ∧
      (∀ (R : Type) (c : QueryCache R) (q : String) (st : QueryState) (r : R)
          (now : Nat) (p : String × (R × Nat)) (rest : List (String × (R × Nat))),
        c.cache = p :: rest → p.1 ≠ "" → MAX_CACHE_SIZE ≤ c.cache.length →
        (c.set q st r now).cache = mapSet rest (generateCacheKey q st) (r, now)) := by
  refine ⟨?_, ?_, ?_, ?_, ?_, ?_, ?_⟩
  · intro V c k v now hnow
    simp only [SessionCache.get, SessionCache.set, mapLookup_mapSet_self]
    rw [if_neg (by omega), if_neg (by simp [SESSION_CACHE_DURATION])]
  · intro V c k v now later hnow hlater
    simp only [SessionCache.get, SessionCache.set, mapLookup_mapSet_self]
    rw [if_neg (by omega), if_pos hlater]
    exact ⟨rfl, mapLookup_mapDelete_self _ k, mapLookup_mapDelete_self _ k⟩
  · intro S c xs now hnow
    simp only [SourceCache.get, SourceCache.set]
    rw [if_neg (by omega), if_neg (by simp [SOURCE_CACHE_DURATION])]
  · intro S c xs now later hnow hlater
    simp only [SourceCache.get, SourceCache.set]
    rw [if_neg (by omega), if_pos hlater]
    exact ⟨rfl, rfl, rfl⟩
  · intro R c q st r now
    simp only [QueryCache.get, QueryCache.set, mapLookup_mapSet_self]
    rw [if_neg (by simp [QUERY_CACHE_DURATION])]
  · intro R c q st r now later hlater
    simp only [QueryCache.get, QueryCache.set, mapLookup_mapSet_self]
    rw [if_pos hlater]
    exact ⟨rfl, mapLookup_mapDelete_self _ _⟩
  · intro R c q st r now p rest hc hkey hlen
    simp only [QueryCache.set, hc, if_pos (hc ▸ hlen), if_neg hkey]

/-- Witness for C7 at concrete caches with `Nat` payloads and concrete
times. -/
theorem cache_ttl_and_eviction_witness :
    (0 : Nat) < 1000 ∧
      ((({} : SessionCache Nat).set "u" 7 1000).get "u" 1000).1 = some 7 ∧
      ((({} : SourceCache Nat).set [1, 2] 1000).get (1000 + 300001)).1 = none ∧
      ((({ cache := List.range MAX_CACHE_SIZE |>.map
            (fun i => (String.push "k" (Char.ofNat (65 + i % 26)), (i, 5)))
          : QueryCache Nat }).set "q"
            { model_name := "m", temperature := 1, top_k := 5, memory_service := "astradb" }
            42 1000).cache).length = MAX_CACHE_SIZE := by
  refine ⟨by decide, ?_, ?_, ?_⟩
  · exact cache_ttl_and_eviction.1 Nat {} "u" 7 1000 (by decide)
  · exact (cache_ttl_and_eviction.2.2.2.1 Nat {} [1, 2] 1000 (1000 + 300001)
      (by decide) (by decide)).1
  · decide

/-- C8 (query-cache key determinism and noninterference): the cache key
is a function of the lower-cased, trimmed query text and exactly the
five settings fields `model_name`, `category`, `sub_category`,
`temperature`, `top_k`; two (query, state) inputs that agree on these
values produce the same key, hence `get` and `set` address the same
slot, whatever the other fields (`memory_service`, `reddit_username`,
`relevance`) hold. -/
theorem query_cache_key_determinism (q1 q2 : String) (s1 s2 : QueryState)
    (hq : strTrim (strLower q1) = strTrim (strLower q2))
    (hmodel : s1.model_name = s2.model_name)
    (hcat : s1.category = s2.category)
    (hsub : s1.sub_category = s2.sub_category)
    (htemp : s1.temperature = s2.temperature)
    (htop : s1.top_k = s2.top_k) :
    generateCacheKey q1 s1 = generateCacheKey q2 s2 ∧
      (∀ (R : Type) (c : QueryCache R) (now : Nat),
        QueryCache.get c q1 s1 now = QueryCache.get c q2 s2 now) ∧
      (∀ (R : Type) (c : QueryCache R) (r : R) (now : Nat),
        QueryCache.set c q1 s1 r now = QueryCache.set c q2 s2 r now) := by
  have hkey : generateCacheKey q1 s1 = generateCacheKey q2 s2 := by
    simp only [generateCacheKey, hq, hmodel, hcat, hsub, htemp, htop]
  exact ⟨hkey,
    fun R c now => by simp only [QueryCache.get, hkey],
    fun R c r now => by simp only [QueryCache.set, hkey]⟩

def querySettingsA : QueryState :=
  { model_name := "codestral-latest", category := some "tutorials"
    sub_category := some "tutorials", temperature := 7 / 10, top_k := 5
    memory_service := "astradb", reddit_username := some "alice"
    relevance := some "top" }

def querySettingsB : QueryState :=
  { model_name := "codestral-latest", category := some "tutorials"
    sub_category := some "tutorials", temperature := 7 / 10, top_k := 5
    memory_service := "weaviate", reddit_username := some "bob"
    relevance := some "new" }

/-- Witness for C8: queries differing in case and surrounding blanks,
settings differing only in `memory_service`, `reddit_username` and
`relevance`, still share one cache key and one cache slot. -/
theorem query_cache_key_determinism_witness :
    strTrim (strLower "  How DO Timers work ") = strTrim (strLower "how do timers work") ∧
      generateCacheKey "  How DO Timers work " querySettingsA =
        generateCacheKey "how do timers work" querySettingsB ∧
      (QueryCache.get ({} : QueryCache Nat) "  How DO Timers work " querySettingsA 50 =
        QueryCache.get ({} : QueryCache Nat) "how do timers work" querySettingsB 50) := by
  have h := query_cache_key_determinism "  How DO Timers work " "how do timers work"
    querySettingsA querySettingsB (by decide) rfl rfl rfl rfl rfl
  exact ⟨by decide, h.1, h.2.1 Nat {} 50⟩

/-! ## Persistence adapter (`customStorage`, `store/appStore.ts`)

`setItem` runs `JSON.stringify(value)`; `getItem` runs
`JSON.parse(item, reviver)` where the reviver turns every string
matching `^\d{4}-\d{2}-\d{2}T\d{2}:\d{2}:\d{2}` into `new Date(value)`.
The JSON text itself is produced and consumed by the platform's
bijective printer/parser, so the stored text is modeled by its JSON
value tree (`JVal`); the repository's own contribution — `Date.toJSON`
producing an ISO string, the reviver's regex test, and `new Date` on an
ISO string — is modeled in full below.  A `Date` is represented by the
calendar fields of its ISO-8601 rendering. -/

structure DateVal where
  year : Nat
  month : Nat
  day : Nat
  hour : Nat
  minute : Nat
  second : Nat
  millis : Nat
deriving Repr, DecidableEq

def digitChar (n : Nat) : Char := Char.ofNat (48 + n)

def digitVal (c : Char) : Nat := c.toNat - 48

def isDigitChar (c : Char) : Bool := 48 ≤ c.toNat && c.toNat ≤ 57

def pad2 (n : Nat) : List Char := [digitChar (n / 10), digitChar (n % 10)]

def pad3 (n : Nat) : List Char :=
  [digitChar (n / 100), digitChar (n / 10 % 10), digitChar (n % 10)]

def pad4 (n : Nat) : List Char :=
  [digitChar (n / 1000), digitChar (n / 100 % 10), digitChar (n / 10 % 10),
    digitChar (n % 10)]

/-- The 24-character `toISOString` rendering
`YYYY-MM-DDTHH:MM:SS.mmmZ`. -/
def isoChars (d : DateVal) : List Char :=
  pad4 d.year ++ ['-'] ++ pad2 d.month ++ ['-'] ++ pad2 d.day ++ ['T'] ++ pad2 d.hour ++
    [':'] ++ pad2 d.minute ++ [':'] ++ pad2 d.second ++ ['.'] ++ pad3 d.millis ++ ['Z']

def isoOfDate (d : DateVal) : String := String.mk (isoChars d)

/-- The reviver's unanchored-at-the-end regex
`^\d{4}-\d{2}-\d{2}T\d{2}:\d{2}:\d{2}`: the first nineteen characters
must have the date-time shape; anything may follow. -/
def isoTestChars : List Char → Bool
  | y1 :: y2 :: y3 :: y4 :: a :: mo1 :: mo2 :: b :: d1 :: d2 :: t :: h1 :: h2 :: c ::
      mi1 :: mi2 :: e :: s1 :: s2 :: _ =>
      isDigitChar y1 && isDigitChar y2 && isDigitChar y3 && isDigitChar y4 &&
        (a == '-') && isDigitChar mo1 && isDigitChar mo2 && (b == '-') &&
        isDigitChar d1 && isDigitChar d2 && (t == 'T') && isDigitChar h1 &&
        isDigitChar h2 && (c == ':') && isDigitChar mi1 && isDigitChar mi2 &&
        (e == ':') && isDigitChar s1 && isDigitChar s2
  | _ => false

def isoTest (s : String) : Bool := isoTestChars s.data

def isLeapYear (y : Nat) : Bool := (y % 4 = 0 && y % 100 ≠ 0) || y % 400 = 0

def daysInMonth (y m : Nat) : Nat :=
  if m = 2 then if isLeapYear y then 29 else 28
  else if m = 4 ∨ m = 6 ∨ m = 9 ∨ m = 11 then 30 else 31

/-- `new Date(s)` on a complete `YYYY-MM-DDTHH:MM:SS.mmmZ` string with
in-range components; anything else among the regex-passing strings
yields an invalid date (`none`). -/
def parseIsoChars : List Char → Option DateVal
  | [y1, y2, y3, y4, sp1, mo1, mo2, sp2, d1, d2, tc, h1, h2, c1, mi1, mi2, c2,
      se1, se2, dotc, ms1, ms2, ms3, zc] =>
      if isDigitChar y1 = true ∧ isDigitChar y2 = true ∧ isDigitChar y3 = true ∧
          isDigitChar y4 = true ∧ isDigitChar mo1 = true ∧ isDigitChar mo2 = true ∧
          isDigitChar d1 = true ∧ isDigitChar d2 = true ∧ isDigitChar h1 = true ∧
          isDigitChar h2 = true ∧ isDigitChar mi1 = true ∧ isDigitChar mi2 = true ∧
          isDigitChar se1 = true ∧ isDigitChar se2 = true ∧ isDigitChar ms1 = true ∧
          isDigitChar ms2 = true ∧ isDigitChar ms3 = true ∧
          sp1 = '-' ∧ sp2 = '-' ∧ tc = 'T' ∧ c1 = ':' ∧ c2 = ':' ∧ dotc = '.' ∧
          zc = 'Z' then
        if 1 ≤ digitVal mo1 * 10 + digitVal mo2 ∧ digitVal mo1 * 10 + digitVal mo2 ≤ 12 ∧
            1 ≤ digitVal d1 * 10 + digitVal d2 ∧
            digitVal d1 * 10 + digitVal d2 ≤
              daysInMonth
                (((digitVal y1 * 10 + digitVal y2) * 10 + digitVal y3) * 10 + digitVal y4)
                (digitVal mo1 * 10 + digitVal mo2) ∧
            digitVal h1 * 10 + digitVal h2 ≤ 23 ∧
            digitVal mi1 * 10 + digitVal mi2 ≤ 59 ∧
            digitVal se1 * 10 + digitVal se2 ≤ 59 then
          some
            { year := ((digitVal y1 * 10 + digitVal y2) * 10 + digitVal y3) * 10 +
                digitVal y4
              month := digitVal mo1 * 10 + digitVal mo2
              day := digitVal d1 * 10 + digitVal d2
              hour := digitVal h1 * 10 + digitVal h2
              minute := digitVal mi1 * 10 + digitVal mi2
              second := digitVal se1 * 10 + digitVal se2
              millis := (digitVal ms1 * 10 + digitVal ms2) * 10 + digitVal ms3 }
        else none
      else none
  | _ => none

/-- The component ranges under which the date round-trips: at most four
year digits and calendar-valid month/day/time fields. -/
def DateOk (d : DateVal) : Prop :=
  d.year ≤ 9999 ∧ 1 ≤ d.month ∧ d.month ≤ 12 ∧ 1 ≤ d.day ∧
    d.day ≤ daysInMonth d.year d.month ∧ d.hour ≤ 23 ∧ d.minute ≤ 59 ∧
    d.second ≤ 59 ∧ d.millis ≤ 999

instance (d : DateVal) : Decidable (DateOk d) := by
  unfold DateOk
  infer_instance

theorem daysInMonth_le_31 (y m : Nat) : daysInMonth y m ≤ 31 := by
  unfold daysInMonth
  split_ifs <;> omega

theorem isDigitChar_digitChar (k : Nat) (h : k ≤ 9) :
    isDigitChar (digitChar k) = true := by
  interval_cases k <;> decide

theorem digitVal_digitChar (k : Nat) (h : k ≤ 9) : digitVal (digitChar k) = k := by
  interval_cases k <;> decide
theorem isoTest_isoOfDate (d : DateVal) (h : DateOk d) : isoTest (isoOfDate d) = true := by
  obtain ⟨hy, hm1, hm2, hd1, hd2, hh, hmi, hs, hms⟩ := h
  have hday31 : d.day ≤ 31 := le_trans hd2 (daysInMonth_le_31 _ _)
  have e1 := isDigitChar_digitChar (d.year / 1000) (by omega)
  have e2 := isDigitChar_digitChar (d.year / 100 % 10) (by omega)
  have e3 := isDigitChar_digitChar (d.year / 10 % 10) (by omega)
  have e4 := isDigitChar_digitChar (d.year % 10) (by omega)
  have e5 := isDigitChar_digitChar (d.month / 10) (by omega)
  have e6 := isDigitChar_digitChar (d.month % 10) (by omega)
  have e7 := isDigitChar_digitChar (d.day / 10) (by omega)
  have e8 := isDigitChar_digitChar (d.day % 10) (by omega)
  have e9 := isDigitChar_digitChar (d.hour / 10) (by omega)
  have e10 := isDigitChar_digitChar (d.hour % 10) (by omega)
  have e11 := isDigitChar_digitChar (d.minute / 10) (by omega)
  have e12 := isDigitChar_digitChar (d.minute % 10) (by omega)
  have e13 := isDigitChar_digitChar (d.second / 10) (by omega)
  have e14 := isDigitChar_digitChar (d.second % 10) (by omega)
  simp only [isoTest, isoOfDate, isoChars, pad4, pad2, pad3, List.cons_append,
    List.nil_append]
  simp [isoTestChars, e1, e2, e3, e4, e5, e6, e7, e8, e9, e10, e11, e12, e13, e14]

theorem parseIsoChars_isoChars (d : DateVal) (h : DateOk d) :
    parseIsoChars (isoChars d) = some d := by
  obtain ⟨hy, hm1, hm2, hd1, hd2, hh, hmi, hs, hms⟩ := h
  have hday31 : d.day ≤ 31 := le_trans hd2 (daysInMonth_le_31 _ _)
  have e1 := isDigitChar_digitChar (d.year / 1000) (by omega)
  have e2 := isDigitChar_digitChar (d.year / 100 % 10) (by omega)
  have e3 := isDigitChar_digitChar (d.year / 10 % 10) (by omega)
  have e4 := isDigitChar_digitChar (d.year % 10) (by omega)
  have e5 := isDigitChar_digitChar (d.month / 10) (by omega)
  have e6 := isDigitChar_digitChar (d.month % 10) (by omega)
  have e7 := isDigitChar_digitChar (d.day / 10) (by omega)
  have e8 := isDigitChar_digitChar (d.day % 10) (by omega)
  have e9 := isDigitChar_digitChar (d.hour / 10) (by omega)
  have e10 := isDigitChar_digitChar (d.hour % 10) (by omega)
  have e11 := isDigitChar_digitChar (d.minute / 10) (by omega)
  have e12 := isDigitChar_digitChar (d.minute % 10) (by omega)
  have e13 := isDigitChar_digitChar (d.second / 10) (by omega)
  have e14 := isDigitChar_digitChar (d.second % 10) (by omega)
  have e15 := isDigitChar_digitChar (d.millis / 100) (by omega)
  have e16 := isDigitChar_digitChar (d.millis / 10 % 10) (by omega)
  have e17 := isDigitChar_digitChar (d.millis % 10) (by omega)
  have v1 := digitVal_digitChar (d.year / 1000) (by omega)
  have v2 := digitVal_digitChar (d.year / 100 % 10) (by omega)
  have v3 := digitVal_digitChar (d.year / 10 % 10) (by omega)
  have v4 := digitVal_digitChar (d.year % 10) (by omega)
  have v5 := digitVal_digitChar (d.month / 10) (by omega)
  have v6 := digitVal_digitChar (d.month % 10) (by omega)
  have v7 := digitVal_digitChar (d.day / 10) (by omega)
  have v8 := digitVal_digitChar (d.day % 10) (by omega)
  have v9 := digitVal_digitChar (d.hour / 10) (by omega)
  have v10 := digitVal_digitChar (d.hour % 10) (by omega)
  have v11 := digitVal_digitChar (d.minute / 10) (by omega)
  have v12 := digitVal_digitChar (d.minute % 10) (by omega)
  have v13 := digitVal_digitChar (d.second / 10) (by omega)
  have v14 := digitVal_digitChar (d.second % 10) (by omega)
  have v15 := digitVal_digitChar (d.millis / 100) (by omega)
  have v16 := digitVal_digitChar (d.millis / 10 % 10) (by omega)
  have v17 := digitVal_digitChar (d.millis % 10) (by omega)
  have ry : ((d.year / 1000 * 10 + d.year / 100 % 10) * 10 + d.year / 10 % 10) * 10 +
      d.year % 10 = d.year := by omega
  have rm : d.month / 10 * 10 + d.month % 10 = d.month := by omega
  have rd : d.day / 10 * 10 + d.day % 10 = d.day := by omega
  have rh : d.hour / 10 * 10 + d.hour % 10 = d.hour := by omega
  have rmi : d.minute / 10 * 10 + d.minute % 10 = d.minute := by omega
  have rs : d.second / 10 * 10 + d.second % 10 = d.second := by omega
  have rms : (d.millis / 100 * 10 + d.millis / 10 % 10) * 10 + d.millis % 10 =
      d.millis := by omega
  simp only [isoChars, pad4, pad2, pad3, List.cons_append, List.nil_append]
  simp only [parseIsoChars, e1, e2, e3, e4, e5, e6, e7, e8, e9, e10, e11, e12, e13, e14,
    e15, e16, e17, v1, v2, v3, v4, v5, v6, v7, v8, v9, v10, v11, v12, v13, v14, v15,
    v16, v17, ry, rm, rd, rh, rmi, rs, rms]
  simp [hm1, hm2, hd1, hd2, hh, hmi, hs]

/-- A JSON value tree: what `JSON.stringify` emits and `JSON.parse`
rebuilds (numeric leaves modeled as integers; number formatting is
orthogonal to the reviver's date logic). -/
inductive JVal where
  | null
  | bool (b : Bool)
  | num (n : Int)
  | str (s : String)
  | arr (xs : List JVal)
  | obj (fields : List (String × JVal))

/-- A storable value tree: a JSON tree possibly holding dates.
`invalidDate` is the invalid date the reviver produces from a
regex-passing but unparseable string. -/
inductive SVal where
  | null
  | bool (b : Bool)
  | num (n : Int)
  | str (s : String)
  | date (d : DateVal)
  | invalidDate
  | arr (xs : List SVal)
  | obj (fields : List (String × SVal))

mutual

/-- `JSON.stringify`: `Date.toJSON` renders an ISO string; an invalid
date stringifies to `null`. -/
def serialize : SVal → JVal
  | .null => .null
  | .bool b => .bool b
  | .num n => .num n
  | .str s => .str s
  | .date d => .str (isoOfDate d)
  | .invalidDate => .null
  | .arr xs => .arr (serializeList xs)
  | .obj fs => .obj (serializeObj fs)

def serializeList : List SVal → List JVal
  | [] => []
  | x :: xs => serialize x :: serializeList xs

def serializeObj : List (String × SVal) → List (String × JVal)
  | [] => []
  | p :: fs => (p.1, serialize p.2) :: serializeObj fs

end

/-- The reviver applied to one string value: a string matching the
regex becomes `new Date(value)`. -/
def reviveStr (s : String) : SVal :=
  if isoTest s then
    match parseIsoChars s.data with
    | some d => .date d
    | none => .invalidDate
  else .str s

mutual

/-- `JSON.parse(text, reviver)`: the reviver visits every string. -/
def revive : JVal → SVal
  | .null => .null
  | .bool b => .bool b
  | .num n => .num n
  | .str s => reviveStr s
  | .arr xs => .arr (reviveList xs)
  | .obj fs => .obj (reviveObj fs)

def reviveList : List JVal → List SVal
  | [] => []
  | x :: xs => revive x :: reviveList xs

def reviveObj : List (String × JVal) → List (String × SVal)
  | [] => []
  | p :: fs => (p.1, revive p.2) :: reviveObj fs

end

mutual

/-- The values the round trip can preserve: every date in range
(`DateOk`), no invalid date, and no string leaf matching the reviver's
ISO pattern. -/
def sOk : SVal → Bool
  | .null => true
  | .bool _ => true
  | .num _ => true
  | .str s => !(isoTest s)
  | .date d => decide (DateOk d)
  | .invalidDate => false
  | .arr xs => sOkList xs
  | .obj fs => sOkObj fs

def sOkList : List SVal → Bool
  | [] => true
  | x :: xs => sOk x && sOkList xs

def sOkObj : List (String × SVal) → Bool
  | [] => true
  | p :: fs => sOk p.2 && sOkObj fs

end

mutual

theorem revive_serialize : ∀ v : SVal, sOk v = true → revive (serialize v) = v
  | .null, _ => rfl
  | .bool b, _ => rfl
  | .num n, _ => rfl
  | .str s, h => by
      have hs : isoTest s = false := by simpa [sOk] using h
      simp [serialize, revive, reviveStr, hs]
  | .date d, h => by
      have hok : DateOk d := of_decide_eq_true (by simpa [sOk] using h)
      have htest : isoTest (isoOfDate d) = true := isoTest_isoOfDate d hok
      have hparse : parseIsoChars (isoOfDate d).data = some d :=
        parseIsoChars_isoChars d hok
      simp [serialize, revive, reviveStr, htest, hparse]
  | .invalidDate, h => by simp [sOk] at h
  | .arr xs, h => by
      have hxs : sOkList xs = true := by simpa [sOk] using h
      simp only [serialize, revive]
      exact congrArg SVal.arr (reviveList_serializeList xs hxs)
  | .obj fs, h => by
      have hfs : sOkObj fs = true := by simpa [sOk] using h
      simp only [serialize, revive]
      exact congrArg SVal.obj (reviveObj_serializeObj fs hfs)

theorem reviveList_serializeList :
    ∀ xs : List SVal, sOkList xs = true → reviveList (serializeList xs) = xs
  | [], _ => rfl
  | x :: xs, h => by
      have h1 : sOk x = true := by
        have := h
        simp only [sOkList, Bool.and_eq_true] at this
        exact this.1
      have h2 : sOkList xs = true := by
        have := h
        simp only [sOkList, Bool.and_eq_true] at this
        exact this.2
      simp only [serializeList, reviveList]
      rw [revive_serialize x h1, reviveList_serializeList xs h2]

theorem reviveObj_serializeObj :
    ∀ fs : List (String × SVal), sOkObj fs = true → reviveObj (serializeObj fs) = fs
  | [], _ => rfl
  | p :: fs, h => by
      have h1 : sOk p.2 = true := by
        have := h
        simp only [sOkObj, Bool.and_eq_true] at this
        exact this.1
      have h2 : sOkObj fs = true := by
        have := h
        simp only [sOkObj, Bool.and_eq_true] at this
        exact this.2
      simp only [serializeObj, reviveObj]
      rw [revive_serialize p.2 h1, reviveObj_serializeObj fs h2]

end

def leakyDate : DateVal :=
  { year := 2024, month := 1, day := 2, hour := 3, minute := 4, second := 5, millis := 6 }

/-- A store state with a date field and a plain string field whose text
happens to match the reviver's ISO pattern. -/
def leakyState : SVal :=
  SVal.obj [("updatedAt", SVal.date leakyDate),
    ("note", SVal.str "2024-01-02T03:04:05.000Z")]

/-- C6 counterexample: the claim quantifies over every JSON-serializable
state with date fields, but a state that also holds a string leaf
matching the ISO pattern does not round-trip — the reviver turns that
string into a date, so the loaded value is not deep-equal to the
original. -/
theorem persistence_round_trip_counterexample :
    revive (serialize leakyState) =
        SVal.obj [("updatedAt", SVal.date leakyDate),
          ("note", SVal.date
            { year := 2024, month := 1, day := 2, hour := 3, minute := 4, second := 5,
              millis := 0 })] ∧
      revive (serialize leakyState) ≠ leakyState := by
  refine ⟨rfl, ?_⟩
  intro h
  rw [show revive (serialize leakyState) =
      SVal.obj [("updatedAt", SVal.date leakyDate),
        ("note", SVal.date
          { year := 2024, month := 1, day := 2, hour := 3, minute := 4, second := 5,
            millis := 0 })] from rfl, leakyState] at h
  simp only [SVal.obj.injEq, List.cons.injEq, Prod.mk.injEq] at h
  exact absurd h.2.1.2 (by intro hh; cases hh)

/-- C6 (amended): `setItem` followed by `getItem` is the identity on
every store state whose date fields are well-formed calendar dates and
whose string fields do not match the reviver's ISO-8601 pattern; in
particular every date field is restored as a date value, not as its
ISO string. -/
theorem persistence_round_trip (v : SVal) (h : sOk v = true) :
    revive (serialize v) = v :=
  revive_serialize v h

/-- Witness for C6 (amended) at a concrete partialized store state
holding a date field. -/
def roundState : SVal :=
  SVal.obj [("user", SVal.str "alice"), ("activeChatId", SVal.str "chat-1"),
    ("updatedAt", SVal.date
      { year := 2024, month := 5, day := 17, hour := 10, minute := 30, second := 0,
        millis := 250 }),
    ("pinned", SVal.bool true), ("topK", SVal.num 5),
    ("tags", SVal.arr [SVal.str "godot"])]

theorem persistence_round_trip_witness :
    sOk roundState = true ∧ revive (serialize roundState) = roundState :=
  ⟨by decide, persistence_round_trip roundState (by decide)⟩
